import Mathlib

/-!
Verification development for the route-optimo repository.

The TypeScript services under `src/` (CSV ingestion, the JSON data
service, the stop aggregation and the passenger prediction) are embedded
shallowly: JavaScript numbers are modelled as `Int`/`ℚ` with exact
arithmetic, `Math.random()` draws are passed as explicit rational
arguments in `[0, 1)`, and thrown exceptions become `Except`.

The Python allocation optimizer and validation simulator described by the
repository's README are not part of the source tree; where a claim is
decided by that missing code, the corresponding definitions are modelled
from the specification and carry a doc comment saying so.
-/

/-- Model of JavaScript `Math.round` on an exact rational: round half
toward positive infinity, i.e. `⌊q + 1/2⌋`. -/
def jsRound (q : ℚ) : Int := ⌊q + 1 / 2⌋

/-- Numeric value of a list of decimal digit characters. -/
def digitsVal (cs : List Char) : Nat :=
  cs.foldl (fun a c => a * 10 + (c.toNat - 48)) 0

/-- Model of JavaScript `parseInt` on a trimmed string: an optional sign
followed by a maximal run of leading decimal digits; `none` models `NaN`
(no leading digits at all). -/
def jsParseInt (s : String) : Option Int :=
  match s.toList with
  | '-' :: rest =>
      let ds := rest.takeWhile Char.isDigit
      if ds.isEmpty then none else some (-(digitsVal ds : Int))
  | '+' :: rest =>
      let ds := rest.takeWhile Char.isDigit
      if ds.isEmpty then none else some (digitsVal ds : Int)
  | cs =>
      let ds := cs.takeWhile Char.isDigit
      if ds.isEmpty then none else some (digitsVal ds : Int)

/-- Model of the JavaScript idiom `parseInt(x) || 0`: `NaN` falls back to
`0`, and a parsed `0` is falsy so it also yields `0`, the same value. -/
def jsParseIntOr0 (s : String) : Int := (jsParseInt s).getD 0

/-- Model of JavaScript `String.prototype.includes`. -/
def jsIncludes (s pat : String) : Bool :=
  (List.range (s.toList.length + 1)).any fun i =>
    pat.toList.isPrefixOf (s.toList.drop i)

namespace TJCSV

/-- Record shape produced by `TransJakartaCSVService.loadCSVData`
(interface `CSVStop` in `transjakarta-csv-service.ts`). -/
structure CSVStop where
  stop_order : Int
  stop_name : String
  direction : String
  destination : String
  observed_passengers : Int
  travel_time_min : Int
  peak : Int
deriving Repr, DecidableEq, Inhabited

/-- Row construction of `loadCSVData` from the comma-split fields of one
CSV line: `parseInt(values[i]) || 0` for the numeric columns and
`values[i] || ''` for the string columns (a missing index, JavaScript
`undefined`, behaves like the empty string under both idioms). -/
def parseCSVLine (values : List String) : CSVStop :=
  { stop_order := jsParseIntOr0 (values.getD 7 "")
    stop_name := values.getD 8 ""
    direction := values.getD 5 ""
    destination := values.getD 6 ""
    observed_passengers := jsParseIntOr0 (values.getD 12 "")
    travel_time_min := jsParseIntOr0 (values.getD 13 "")
    peak := jsParseIntOr0 (values.getD 10 "") }

/-- Row-retention predicate of `loadCSVData`:
`stop.stop_name && stop.stop_order > 0`. -/
def keepStop (s : CSVStop) : Bool :=
  decide (s.stop_name ≠ "") && decide (0 < s.stop_order)

/-- Pure core of `TransJakartaCSVService.loadCSVData`: map the
comma-split data lines through the row constructor and keep the rows
passing `keepStop`.  This is the entire ingestion-time validation; no
error is ever raised for a cell value. -/
def loadCSVData (lines : List (List String)) : List CSVStop :=
  (lines.map parseCSVLine).filter keepStop

end TJCSV

namespace CSVDataService

/-- Record shape of `csv-data-service` rows (interface `CSVRow`).
JavaScript numeric fields are modelled as exact integers and rationals. -/
structure CSVRow where
  date : String
  day_of_week : String
  time : String
  hour : Int
  minute : Int
  direction : String
  destination : String
  stop_order : Int
  stop_name : String
  stop_coef : ℚ
  peak : Int
  sample_id : Int
  observed_passengers : Int
  travel_time_min : Int
deriving Repr, DecidableEq

/-- `CSVDataService.getDataForStop`: filter rows by exact stop name. -/
def getDataForStop (rows : List CSVRow) (stopName : String) : List CSVRow :=
  rows.filter fun row => row.stop_name = stopName

/-- `CSVDataService.getAveragePassengersForStop`: `0` on no matching
rows, otherwise `Math.round` of the sum divided by the count. -/
def getAveragePassengersForStop (rows : List CSVRow) (stopName : String) : Int :=
  let stopData := getDataForStop rows stopName
  if stopData.length = 0 then 0
  else
    let totalPassengers := (stopData.map CSVRow.observed_passengers).sum
    jsRound ((totalPassengers : ℚ) / (stopData.length : ℚ))

end CSVDataService

namespace ServerAverage

/-- Pure core of the `/api/stops/:stopName/average` endpoint of
`server.js`: rows arrive as `(stop_name, observed_passengers)` pairs with
the passenger column already numeric.  The endpoint collects the matching
passenger counts, then answers `(Math.round(sum/length), length)` when at
least one row matched and `(0, 0)` otherwise. -/
def averageForStop (rows : List (String × Int)) (stopName : String) : Int × Nat :=
  let results := (rows.filter fun r => r.1 = stopName).map Prod.snd
  if 0 < results.length then
    (jsRound ((results.sum : ℚ) / (results.length : ℚ)), results.length)
  else (0, 0)

end ServerAverage

/-- Arithmetic mean of a list of integers, as a rational (spec-side
definition used to compare against the code's computations). -/
def arithMean (xs : List Int) : ℚ := (xs.sum : ℚ) / (xs.length : ℚ)

namespace TJData

/-- Record shape of historical observations (interface `HistoricalData`
in `transjakarta-data-service.ts`). -/
structure HistoricalData where
  date : String
  dayOfWeek : String
  time : String
  hour : Int
  minute : Int
  direction : String
  destination : String
  stopOrder : Int
  stopName : String
  stopCoef : ℚ
  peak : Int
  sampleId : Int
  observedPassengers : Int
  travelTimeMin : Int
deriving DecidableEq

/-- Filter used at the head of `predictPassengers`: rows for the same
stop and weekday whose hour is within one of the requested hour. -/
def matchingRows (hist : List HistoricalData) (stopName dayOfWeek : String)
    (hour : Int) : List HistoricalData :=
  hist.filter fun row =>
    decide (row.stopName = stopName) && decide (row.dayOfWeek = dayOfWeek) &&
      decide ((row.hour - hour).natAbs ≤ 1)

/-- `TransjakartaDataService.predictPassengers`.  The single
`Math.random()` draw the method performs is passed in as `rand`; the
method has no seed parameter and reads no seed configuration.  The
`minute`, `direction` and `destination` parameters are accepted but,
as in the source, never used in the computation. -/
def predictPassengers (hist : List HistoricalData) (stopName dayOfWeek : String)
    (hour minute : Int) (direction destination : String) (rand : ℚ) : Int :=
  let _ := minute
  let _ := direction
  let _ := destination
  let historicalData := matchingRows hist stopName dayOfWeek hour
  if 0 < historicalData.length then
    let avgPassengers : ℚ :=
      ((historicalData.map HistoricalData.observedPassengers).sum : ℚ) /
        (historicalData.length : ℚ)
    let b1 := avgPassengers
    let b2 :=
      if 6 ≤ hour ∧ hour ≤ 9 then b1 * 1.8
      else if 16 ≤ hour ∧ hour ≤ 19 then b1 * 1.6
      else if 22 ≤ hour ∨ hour ≤ 5 then b1 * 0.3
      else b1
    let b3 :=
      if dayOfWeek = "Monday" ∨ dayOfWeek = "Friday" then b2 * 1.2
      else if dayOfWeek = "Saturday" ∨ dayOfWeek = "Sunday" then b2 * 0.8
      else b2
    let b4 :=
      if jsIncludes stopName "Pulo Gadung" ∨ jsIncludes stopName "Monas" then b3 * 1.3
      else if jsIncludes stopName "Juanda" ∨ jsIncludes stopName "Harmoni" then b3 * 1.1
      else b3
    let variation := 0.8 + rand * 0.4
    max 1 (jsRound (b4 * variation))
  else
    let b1 : ℚ := 15
    let b2 :=
      if 6 ≤ hour ∧ hour ≤ 9 then b1 * 1.8
      else if 16 ≤ hour ∧ hour ≤ 19 then b1 * 1.6
      else if 22 ≤ hour ∨ hour ≤ 5 then b1 * 0.3
      else b1
    let b3 :=
      if dayOfWeek = "Monday" ∨ dayOfWeek = "Friday" then b2 * 1.2
      else if dayOfWeek = "Saturday" ∨ dayOfWeek = "Sunday" then b2 * 0.8
      else b2
    let b4 :=
      if jsIncludes stopName "Pulo Gadung" ∨ jsIncludes stopName "Monas" then b3 * 1.3
      else if jsIncludes stopName "Juanda" then b3 * 1.1
      else b3
    let variation := 0.8 + rand * 0.4
    max 1 (jsRound (b4 * variation))

/-- Deterministic part of `predictPassengers`: the base passenger value
computed from the inputs alone, before the `Math.random()`-driven
variation factor is applied. -/
def predictBase (hist : List HistoricalData) (stopName dayOfWeek : String)
    (hour : Int) : ℚ :=
  let historicalData := matchingRows hist stopName dayOfWeek hour
  if 0 < historicalData.length then
    let avgPassengers : ℚ :=
      ((historicalData.map HistoricalData.observedPassengers).sum : ℚ) /
        (historicalData.length : ℚ)
    let b1 := avgPassengers
    let b2 :=
      if 6 ≤ hour ∧ hour ≤ 9 then b1 * 1.8
      else if 16 ≤ hour ∧ hour ≤ 19 then b1 * 1.6
      else if 22 ≤ hour ∨ hour ≤ 5 then b1 * 0.3
      else b1
    let b3 :=
      if dayOfWeek = "Monday" ∨ dayOfWeek = "Friday" then b2 * 1.2
      else if dayOfWeek = "Saturday" ∨ dayOfWeek = "Sunday" then b2 * 0.8
      else b2
    if jsIncludes stopName "Pulo Gadung" ∨ jsIncludes stopName "Monas" then b3 * 1.3
    else if jsIncludes stopName "Juanda" ∨ jsIncludes stopName "Harmoni" then b3 * 1.1
    else b3
  else
    let b1 : ℚ := 15
    let b2 :=
      if 6 ≤ hour ∧ hour ≤ 9 then b1 * 1.8
      else if 16 ≤ hour ∧ hour ≤ 19 then b1 * 1.6
      else if 22 ≤ hour ∨ hour ≤ 5 then b1 * 0.3
      else b1
    let b3 :=
      if dayOfWeek = "Monday" ∨ dayOfWeek = "Friday" then b2 * 1.2
      else if dayOfWeek = "Saturday" ∨ dayOfWeek = "Sunday" then b2 * 0.8
      else b2
    if jsIncludes stopName "Pulo Gadung" ∨ jsIncludes stopName "Monas" then b3 * 1.3
    else if jsIncludes stopName "Juanda" then b3 * 1.1
    else b3

end TJData

namespace TJCSV

/-- Output record of `TransJakartaCSVService.getStops` (interface
`Corridor2Stop`); the `location` object is flattened into `lat`/`lng`,
with the coordinate arithmetic carried out exactly over `ℚ`. -/
structure Corridor2Stop where
  id : String
  name : String
  order : Int
  direction : String
  destination : String
  avg_passengers : Int
  avg_travel_time : Int
  peak_hours : Nat
  lat : ℚ
  lng : ℚ
  crowding : String
  waiting_passengers : Int
  prediction : String
  zone : String
  description : String
deriving DecidableEq, Inhabited

/-- One step of the `getStops` grouping pass: append the record to its
stop-name bucket, creating the bucket at the end on first sight (a
JavaScript `Map` iterates in key-insertion order). -/
def insertRecord (m : List (String × List CSVStop)) (s : CSVStop) :
    List (String × List CSVStop) :=
  match m with
  | [] => [(s.stop_name, [s])]
  | (n, rs) :: rest =>
      if n = s.stop_name then (n, rs ++ [s]) :: rest
      else (n, rs) :: insertRecord rest s

/-- Grouping pass of `getStops`: buckets of records per stop name, in
first-occurrence order. -/
def groupByName (data : List CSVStop) : List (String × List CSVStop) :=
  data.foldl insertRecord []

/-- Model of `String(order).padStart(3, '0')`. -/
def padStart3Zero (s : String) : String :=
  if 3 ≤ s.length then s else String.mk (List.replicate (3 - s.length) '0') ++ s

/-- `Math.min(...records.map(r => r.stop_order))`; the `0` default is
unreachable because grouping never produces an empty bucket. -/
def minStopOrder (rs : List CSVStop) : Int :=
  match rs.map CSVStop.stop_order with
  | [] => 0
  | x :: xs => xs.foldl min x

/-- Body of the per-group `map` inside `getStops`.  The group at
position `i` of the iteration performs two `Math.random()` calls, in
order: one for `waiting_passengers` and one for `prediction`; they are
modelled as draws `rand (2*i)` and `rand (2*i+1)` of an ambient stream
`rand` of values in `[0, 1)`. -/
def mkCorridor2Stop (rand : Nat → ℚ) (i : Nat) (name : String)
    (records : List CSVStop) : Corridor2Stop :=
  let avgPassengers :=
    jsRound (((records.map CSVStop.observed_passengers).sum : ℚ) / (records.length : ℚ))
  let avgTravelTime :=
    jsRound (((records.map CSVStop.travel_time_min).sum : ℚ) / (records.length : ℚ))
  let peakHours := (records.filter fun r => r.peak = 1).length
  let crowding :=
    if 30 < avgPassengers then "high"
    else if 15 < avgPassengers then "medium"
    else "low"
  let order := minStopOrder records
  let rec0 := records.getD 0 default
  { id := "S" ++ padStart3Zero (toString order)
    name := name
    order := order
    direction := rec0.direction
    destination := rec0.destination
    avg_passengers := avgPassengers
    avg_travel_time := avgTravelTime
    peak_hours := peakHours
    lat := -6.2088 + ((order : ℚ) - 1) * 0.003
    lng := 106.8270 - ((order : ℚ) - 1) * 0.001
    crowding := crowding
    waiting_passengers := avgPassengers + ⌊rand (2 * i) * 20⌋
    prediction := "Next bus in " ++ toString (⌊rand (2 * i + 1) * 10⌋ + 1) ++ " min"
    zone := if order ≤ 7 then "East Jakarta" else "Central Jakarta"
    description := name ++ " - Corridor 2 stop " ++ toString order }

/-- Comparison used by the final `stops.sort((a, b) => a.order - b.order)`
of `getStops`; JavaScript `Array.prototype.sort` is stable, so the sort
is modelled by a stable insertion sort under this relation. -/
def stopLe (a b : Corridor2Stop) : Prop := a.order ≤ b.order

instance : DecidableRel stopLe := fun a b => Int.decLe a.order b.order

/-- `TransJakartaCSVService.getStops`: empty when the data is not
loaded, otherwise group, aggregate and stable-sort by stop order. -/
def getStops (isLoaded : Bool) (csvData : List CSVStop) (rand : Nat → ℚ) :
    List Corridor2Stop :=
  if !isLoaded then []
  else
    List.insertionSort stopLe
      ((groupByName csvData).enum.map fun p => mkCorridor2Stop rand p.1 p.2.1 p.2.2)

/-- Projection of a `Corridor2Stop` onto the fields that are computed
without consulting `Math.random` (everything except
`waiting_passengers` and `prediction`). -/
structure DetStop where
  id : String
  name : String
  order : Int
  direction : String
  destination : String
  avg_passengers : Int
  avg_travel_time : Int
  peak_hours : Nat
  lat : ℚ
  lng : ℚ
  crowding : String
  zone : String
  description : String
deriving DecidableEq

/-- Forget the two random-dependent fields of a `Corridor2Stop`. -/
def dropRandom (s : Corridor2Stop) : DetStop :=
  { id := s.id, name := s.name, order := s.order, direction := s.direction
    destination := s.destination, avg_passengers := s.avg_passengers
    avg_travel_time := s.avg_travel_time, peak_hours := s.peak_hours
    lat := s.lat, lng := s.lng, crowding := s.crowding, zone := s.zone
    description := s.description }

/-- Order relation on projected stops, matching `stopLe`. -/
def detStopLe (a b : DetStop) : Prop := a.order ≤ b.order

instance : DecidableRel detStopLe := fun a b => Int.decLe a.order b.order

end TJCSV

namespace TJJSON

/-- Record shape of stops served by the JSON service (interface
`TransJakartaStop` in `transjakarta-json-service.ts`); the `location`
object is flattened into `lat`/`lng`. -/
structure TransJakartaStop where
  id : String
  name : String
  lat : ℚ
  lng : ℚ
  waiting_passengers : Int
  service_lines : List String
  corridor : String
  crowding : String
  prediction : String
  zone : String
  description : String
deriving DecidableEq

/-- Record shape of routes served by the JSON service (interface
`TransJakartaRoute`). -/
structure TransJakartaRoute where
  id : String
  name : String
  short_name : String
  color : String
  text_color : String
  corridor : String
  stops : List String
  coordinates : List (ℚ × ℚ)
deriving DecidableEq

/-- Record shape of live buses (interface `LiveBus`). -/
structure LiveBus where
  id : String
  route : String
  lng : ℚ
  lat : ℚ
  capacity : Int
  occupancy : Int
  delay : Int
  speed : Int
  route_color : String
  next_stop : String
  eta : String
deriving DecidableEq

/-- Prediction horizon selector (`'next_15min' | 'next_30min'`). -/
inductive Horizon where
  | next15min
  | next30min
deriving DecidableEq

/-- Prediction tables (interface `Predictions`): the JavaScript
`Record<string, …>` objects become association lists. -/
structure Predictions where
  crowding_next_15min : List (String × String)
  crowding_next_30min : List (String × String)
  arrival_next_15min : List (String × String)
  arrival_next_30min : List (String × String)
deriving DecidableEq

/-- Whole payload of `transjakarta-data.json` (interface
`TransJakartaData`). -/
structure TransJakartaData where
  stops : List TransJakartaStop
  routes : List TransJakartaRoute
  live_buses : List LiveBus
  predictions : Predictions
deriving DecidableEq

/-- Mutable fields of `TransJakartaJSONService`: `data` (initially
`null`) and `isLoaded` (initially `false`).  Accessors are modelled in
state-passing style; each returns its result together with the state it
leaves behind, which is its input state verbatim because none of the
accessor bodies contains an assignment. -/
structure ServiceState where
  data : Option TransJakartaData
  isLoaded : Bool
deriving DecidableEq

/-- Initial state of the singleton service, before any `loadData()`. -/
def initialState : ServiceState := { data := none, isLoaded := false }

/-- Shared guard `!this.isLoaded || !this.data` of every accessor. -/
def notLoaded (s : ServiceState) : Bool := !s.isLoaded || s.data.isNone

/-- Message of the error thrown by the four strict accessors. -/
def notLoadedMsg : String := "Data not loaded. Call loadData() first."

/-- `getStops`: throws when the data is not loaded. -/
def getStops (s : ServiceState) :
    Except String (List TransJakartaStop) × ServiceState :=
  (if notLoaded s then .error notLoadedMsg
   else
     match s.data with
     | some d => .ok d.stops
     | none => .error notLoadedMsg, s)

/-- `getRoutes`: throws when the data is not loaded. -/
def getRoutes (s : ServiceState) :
    Except String (List TransJakartaRoute) × ServiceState :=
  (if notLoaded s then .error notLoadedMsg
   else
     match s.data with
     | some d => .ok d.routes
     | none => .error notLoadedMsg, s)

/-- `getLiveBuses`: throws when the data is not loaded. -/
def getLiveBuses (s : ServiceState) :
    Except String (List LiveBus) × ServiceState :=
  (if notLoaded s then .error notLoadedMsg
   else
     match s.data with
     | some d => .ok d.live_buses
     | none => .error notLoadedMsg, s)

/-- `getPredictions`: throws when the data is not loaded. -/
def getPredictions (s : ServiceState) :
    Except String Predictions × ServiceState :=
  (if notLoaded s then .error notLoadedMsg
   else
     match s.data with
     | some d => .ok d.predictions
     | none => .error notLoadedMsg, s)

/-- `getStopById`: `undefined` when the data is not loaded. -/
def getStopById (s : ServiceState) (id : String) :
    Option TransJakartaStop × ServiceState :=
  (if notLoaded s then none
   else s.data.bind fun d => d.stops.find? fun stop => stop.id = id, s)

/-- `getRouteById`: `undefined` when the data is not loaded. -/
def getRouteById (s : ServiceState) (id : String) :
    Option TransJakartaRoute × ServiceState :=
  (if notLoaded s then none
   else s.data.bind fun d => d.routes.find? fun route => route.id = id, s)

/-- `getStopsByCrowding`: empty list when the data is not loaded. -/
def getStopsByCrowding (s : ServiceState) (crowding : String) :
    List TransJakartaStop × ServiceState :=
  (if notLoaded s then []
   else
     match s.data with
     | some d => d.stops.filter fun stop => stop.crowding = crowding
     | none => [], s)

/-- `getStopsByZone`: empty list when the data is not loaded. -/
def getStopsByZone (s : ServiceState) (zone : String) :
    List TransJakartaStop × ServiceState :=
  (if notLoaded s then []
   else
     match s.data with
     | some d => d.stops.filter fun stop => stop.zone = zone
     | none => [], s)

/-- `getStopsByServiceLine`: empty list when the data is not loaded. -/
def getStopsByServiceLine (s : ServiceState) (serviceLine : String) :
    List TransJakartaStop × ServiceState :=
  (if notLoaded s then []
   else
     match s.data with
     | some d => d.stops.filter fun stop => stop.service_lines.contains serviceLine
     | none => [], s)

/-- `getStopsByCorridor`: empty list when the data is not loaded. -/
def getStopsByCorridor (s : ServiceState) (corridor : String) :
    List TransJakartaStop × ServiceState :=
  (if notLoaded s then []
   else
     match s.data with
     | some d => d.stops.filter fun stop => stop.corridor = corridor
     | none => [], s)

/-- `getRoutesByCorridor`: empty list when the data is not loaded. -/
def getRoutesByCorridor (s : ServiceState) (corridor : String) :
    List TransJakartaRoute × ServiceState :=
  (if notLoaded s then []
   else
     match s.data with
     | some d => d.routes.filter fun route => route.corridor = corridor
     | none => [], s)

/-- Crowding table for a horizon. -/
def crowdingTable (p : Predictions) : Horizon → List (String × String)
  | .next15min => p.crowding_next_15min
  | .next30min => p.crowding_next_30min

/-- Arrival-time table for a horizon. -/
def arrivalTable (p : Predictions) : Horizon → List (String × String)
  | .next15min => p.arrival_next_15min
  | .next30min => p.arrival_next_30min

/-- `getCrowdingPrediction`: `'unknown'` when the data is not loaded,
otherwise the table entry with `'unknown'` as the `||` fallback. -/
def getCrowdingPrediction (s : ServiceState) (stopId : String) (h : Horizon) :
    String × ServiceState :=
  (if notLoaded s then "unknown"
   else
     match s.data with
     | some d =>
         (((crowdingTable d.predictions h).find? fun p => p.1 = stopId).map
           Prod.snd).getD "unknown"
     | none => "unknown", s)

/-- `getArrivalPrediction`: `'N/A'` when the data is not loaded,
otherwise the table entry with `'N/A'` as the `||` fallback. -/
def getArrivalPrediction (s : ServiceState) (stopId : String) (h : Horizon) :
    String × ServiceState :=
  (if notLoaded s then "N/A"
   else
     match s.data with
     | some d =>
         (((arrivalTable d.predictions h).find? fun p => p.1 = stopId).map
           Prod.snd).getD "N/A"
     | none => "N/A", s)

end TJJSON

namespace Optimizer

/-- Modelled from the spec: configuration of the Allocation Optimizer
(the repository ships only the README of the Python
`python_transit_optimizer` package; `config.py` and `optimizer.py` are
not in the source tree).  Fields follow the spec's recognized
configuration options. -/
structure OptimizerConfig where
  totalFleetSize : Nat
  busCapacity : Nat
  slotDurationMinutes : Nat
  operatingCostPerBusHour : ℚ
  overloadPenalty : ℚ
  minHeadwayMinutes : Nat
  maxHeadwayMinutes : Nat
deriving DecidableEq

/-- Ceiling division on naturals (`0` when the divisor is `0`). -/
def ceilDivNat (a b : Nat) : Nat := (a + b - 1) / b

/-- Modelled from the spec: lower headway bound
`ceil(slotDurationMinutes / maxHeadwayMinutes)`, clipped to `≥ 0`;
`0` (no bound) when no maximum headway is configured. -/
def headwayFloor (cfg : OptimizerConfig) : Nat :=
  ceilDivNat cfg.slotDurationMinutes cfg.maxHeadwayMinutes

/-- Modelled from the spec: upper headway bound
`floor(slotDurationMinutes / minHeadwayMinutes)`; the whole fleet (no
bound) when no minimum headway is configured. -/
def headwayCap (cfg : OptimizerConfig) : Nat :=
  if cfg.minHeadwayMinutes = 0 then cfg.totalFleetSize
  else cfg.slotDurationMinutes / cfg.minHeadwayMinutes

/-- Modelled from the spec: allocate buses to the routes of one time
slot from a shared remaining-fleet budget.  Demands are listed per
route; each cell receives `(busesAssigned, overload)` where the bus
count covers the demand when the budget and headway cap allow, and the
overload is exactly the uncovered remainder of the demand.  `none`
signals `OptimizationInfeasible` (the headway floor cannot be met). -/
def allocRoutes (cfg : OptimizerConfig) : Nat → List Nat → Option (List (Nat × Nat))
  | _, [] => some []
  | budget, d :: ds =>
    let lo := headwayFloor cfg
    let hi := headwayCap cfg
    let want := max lo (ceilDivNat d cfg.busCapacity)
    let b := min (min want hi) budget
    if b < lo then none
    else
      match allocRoutes cfg (budget - b) ds with
      | none => none
      | some rest => some ((b, d - b * cfg.busCapacity) :: rest)

/-- Modelled from the spec: solve every time slot of the analysis
window.  The demand table `dss` lists, per time slot, the demand of each
route in that slot; each slot draws on the full fleet (the fleet bound
is per slot, not summed across the day). -/
def solveSlots (cfg : OptimizerConfig) : List (List Nat) → Option (List (List (Nat × Nat)))
  | [] => some []
  | ds :: rest =>
    match allocRoutes cfg cfg.totalFleetSize ds, solveSlots cfg rest with
    | some a, some as => some (a :: as)
    | _, _ => none

/-- Modelled from the spec: tagged result type of a solver run,
`Success(AllocationDecision) | Infeasible(reason) | TimedOut(incumbent)`. -/
inductive OptResult where
  | success (alloc : List (List (Nat × Nat)))
  | infeasible (reason : String)
  | timedOut (incumbent : List (List (Nat × Nat)))
deriving DecidableEq

/-- Modelled from the spec: the trivial zero allocation used as the
timeout incumbent — no buses anywhere, all demand counted as overload. -/
def zeroAllocation (dss : List (List Nat)) : List (List (Nat × Nat)) :=
  dss.map fun ds => ds.map fun d => (0, d)

/-- Modelled from the spec: solver invocation under a wall-clock
timeout.  A timeout of `0` seconds elapses before optimality can be
proved, so the run returns the best-known incumbent — the trivial zero
allocation — flagged as `timedOut` rather than failing. -/
def solveWithTimeout (cfg : OptimizerConfig) (dss : List (List Nat))
    (timeoutSeconds : Nat) : OptResult :=
  if timeoutSeconds = 0 then .timedOut (zeroAllocation dss)
  else
    match solveSlots cfg dss with
    | some a => .success a
    | none => .infeasible "headway"

/-- Modelled from the spec: an allocation over `(route, slot)` cells as
abstract decision variables: a non-negative integer bus count and a
non-negative real (here rational) overload per cell. -/
structure Allocation where
  buses : Nat → Nat → Nat
  overload : Nat → Nat → ℚ

/-- Modelled from the spec: the ILP constraint set over `R` routes and
`T` slots — overload non-negativity, per-cell capacity covering, the
per-slot fleet bound and the headway bounds. -/
def Feasible (cfg : OptimizerConfig) (R T : Nat) (demand : Nat → Nat → ℚ)
    (a : Allocation) : Prop :=
  (∀ r < R, ∀ t < T, 0 ≤ a.overload r t) ∧
  (∀ r < R, ∀ t < T,
    demand r t ≤ (a.buses r t : ℚ) * (cfg.busCapacity : ℚ) + a.overload r t) ∧
  (∀ t < T, ((Finset.range R).sum fun r => a.buses r t) ≤ cfg.totalFleetSize) ∧
  (∀ r < R, ∀ t < T,
    headwayFloor cfg ≤ a.buses r t ∧ a.buses r t ≤ headwayCap cfg)

/-- Modelled from the spec: the ILP objective
`Σ buses·slotDurationHours·operatingCostPerBusHour + Σ overload·overloadPenalty`. -/
def objective (cfg : OptimizerConfig) (R T : Nat) (a : Allocation) : ℚ :=
  ((Finset.range R).sum fun r => (Finset.range T).sum fun t =>
    (a.buses r t : ℚ) * ((cfg.slotDurationMinutes : ℚ) / 60) *
      cfg.operatingCostPerBusHour) +
  ((Finset.range R).sum fun r => (Finset.range T).sum fun t =>
    a.overload r t * cfg.overloadPenalty)

/-- Modelled from the spec: an optimal solution is a feasible allocation
whose objective is at most that of every feasible allocation. -/
def IsOptimal (cfg : OptimizerConfig) (R T : Nat) (demand : Nat → Nat → ℚ)
    (a : Allocation) : Prop :=
  Feasible cfg R T demand a ∧
  ∀ b, Feasible cfg R T demand b → objective cfg R T a ≤ objective cfg R T b

end Optimizer

namespace Simulator

/-- Modelled from the spec: event kinds of the Validation Simulator,
`eventType ∈ {arrival, departure}`. -/
inductive EventType where
  | arrival
  | departure
deriving DecidableEq, Inhabited

/-- Modelled from the spec: a scheduled `SimulationEvent` — a
`(timestamp, BusTrip, eventType)` tuple (the repository ships only the
README of the Python package; `simulator.py` is not in the source
tree).  Timestamps are logical-clock ticks. -/
structure SimulationEvent where
  timestamp : Nat
  busTrip : Nat
  eventType : EventType
deriving DecidableEq, Inhabited

/-- Keys of the scheduled events: each event is paired with its
insertion sequence number, so the key of the event inserted `i`-th is
`(i, timestamp)`. -/
def eventKeys (es : List SimulationEvent) : List (Nat × Nat) :=
  (es.map SimulationEvent.timestamp).enum

/-- Modelled from the spec: priority order of the event queue — by
timestamp, with equal timestamps broken by insertion sequence number
(FIFO). -/
def keyLe (a b : Nat × Nat) : Prop :=
  a.2 < b.2 ∨ (a.2 = b.2 ∧ a.1 ≤ b.1)

instance : DecidableRel keyLe := fun a b => by
  unfold keyLe
  exact instDecidableOr

instance : IsTotal (Nat × Nat) keyLe := by
  constructor
  intro a b
  unfold keyLe
  omega

instance : IsTrans (Nat × Nat) keyLe := by
  constructor
  intro a b c hab hbc
  unfold keyLe at *
  omega

instance : IsAntisymm (Nat × Nat) keyLe := by
  constructor
  intro a b hab hba
  unfold keyLe at *
  have h2 : a.2 = b.2 := by omega
  have h1 : a.1 = b.1 := by omega
  exact Prod.ext h1 h2

/-- Modelled from the spec: the order in which the single-threaded
discrete-event loop drains the queue — the scheduled events' keys sorted
by `(timestamp, insertion sequence)`. -/
def processOrder (es : List SimulationEvent) : List (Nat × Nat) :=
  List.insertionSort keyLe (eventKeys es)

/-- Modelled from the spec: the processed event sequence, recovered from
the processed keys. -/
def processedEvents (es : List SimulationEvent) : List SimulationEvent :=
  (processOrder es).map fun p => es.getD p.1 default

end Simulator

/-- Soundness of the per-slot allocation pass: a successful result has
one `(buses, overload)` cell per route, spends at most the budget, and
covers each route's demand with capacity plus overload. -/
theorem allocRoutes_sound (cfg : Optimizer.OptimizerConfig) (ds : List Nat) :
    ∀ (budget : Nat) (ps : List (Nat × Nat)),
      Optimizer.allocRoutes cfg budget ds = some ps →
      ps.length = ds.length ∧ (ps.map Prod.fst).sum ≤ budget ∧
      ∀ r < ds.length,
        ds.getD r 0 ≤ (ps.getD r (0, 0)).1 * cfg.busCapacity + (ps.getD r (0, 0)).2 := by
  induction ds with
  | nil =>
    intro budget ps h
    simp only [Optimizer.allocRoutes, Option.some.injEq] at h
    subst h
    simp
  | cons d ds ih =>
    intro budget ps h
    simp only [Optimizer.allocRoutes] at h
    split at h
    · simp at h
    · split at h
      · simp at h
      · next rest hrest =>
        rw [Option.some.injEq] at h
        subst h
        obtain ⟨ihlen, ihsum, ihpt⟩ := ih _ _ hrest
        refine ⟨by simp [ihlen], ?_, ?_⟩
        · have hble :
            min (min (max (Optimizer.headwayFloor cfg)
                (Optimizer.ceilDivNat d cfg.busCapacity))
              (Optimizer.headwayCap cfg)) budget ≤ budget := Nat.min_le_right _ _
          simp only [List.map_cons, List.sum_cons]
          omega
        · intro r hr
          cases r with
          | zero =>
            simp only [List.getD_cons_zero]
            have hk :
              d - min (min (max (Optimizer.headwayFloor cfg)
                    (Optimizer.ceilDivNat d cfg.busCapacity))
                  (Optimizer.headwayCap cfg)) budget * cfg.busCapacity
                ≤ d := Nat.sub_le _ _
            omega
          | succ r' =>
            simp only [List.getD_cons_succ]
            exact ihpt r' (by simpa using hr)

/-- Soundness of the slot loop: a successful solve has one slot row per
demand row, and each slot row is a successful per-slot allocation drawn
from the full fleet. -/
theorem solveSlots_sound (cfg : Optimizer.OptimizerConfig) (dss : List (List Nat)) :
    ∀ alloc, Optimizer.solveSlots cfg dss = some alloc →
      alloc.length = dss.length ∧
      ∀ t < dss.length,
        Optimizer.allocRoutes cfg cfg.totalFleetSize (dss.getD t []) =
          some (alloc.getD t []) := by
  induction dss with
  | nil =>
    intro alloc h
    simp only [Optimizer.solveSlots, Option.some.injEq] at h
    subst h
    simp
  | cons ds rest ih =>
    intro alloc h
    simp only [Optimizer.solveSlots] at h
    split at h
    · next a as ha has =>
      rw [Option.some.injEq] at h
      subst h
      obtain ⟨hlen, hall⟩ := ih as has
      refine ⟨by simp [hlen], ?_⟩
      intro t ht
      cases t with
      | zero => simpa using ha
      | succ t' =>
        simp only [List.getD_cons_succ]
        exact hall t' (by simpa using ht)
    · simp at h

/-- Claim C1: every solved allocation produced by the Allocation
Optimizer satisfies, in every `(route, timeSlot)` cell,
`buses[r,t] × busCapacity + overload[r,t] ≥ demand[r,t]`. -/
theorem optimizer_capacity_constraint (cfg : Optimizer.OptimizerConfig)
    (dss : List (List Nat)) (alloc : List (List (Nat × Nat)))
    (h : Optimizer.solveSlots cfg dss = some alloc) :
    ∀ t < dss.length, ∀ r < (dss.getD t []).length,
      (dss.getD t []).getD r 0 ≤
        ((alloc.getD t []).getD r (0, 0)).1 * cfg.busCapacity +
          ((alloc.getD t []).getD r (0, 0)).2 := by
  intro t ht r hr
  obtain ⟨-, hslot⟩ := solveSlots_sound cfg dss alloc h
  obtain ⟨-, -, hpt⟩ := allocRoutes_sound cfg (dss.getD t []) _ _ (hslot t ht)
  exact hpt r hr

/-- Witness for C1: on the spec's own scenario (one slot, demand
`[50, 0]`, capacity 80, fleet 10) the solver returns one bus and zero
overload for the loaded route, and the capacity inequality holds in the
first cell. -/
theorem optimizer_capacity_constraint_witness :
    ((([[50, 0]] : List (List Nat)).getD 0 []).getD 0 0 ≤
      ((([[(1, 0), (0, 0)]] : List (List (Nat × Nat))).getD 0 []).getD 0 (0, 0)).1 *
          (⟨10, 80, 15, 1, 1, 1, 0⟩ : Optimizer.OptimizerConfig).busCapacity +
        ((([[(1, 0), (0, 0)]] : List (List (Nat × Nat))).getD 0 []).getD 0 (0, 0)).2) :=
  optimizer_capacity_constraint ⟨10, 80, 15, 1, 1, 1, 0⟩ [[50, 0]] [[(1, 0), (0, 0)]]
    (by decide) 0 (by decide) 0 (by decide)

/-- Claim C2: for every solved allocation and every time slot, the sum
over routes of the assigned bus counts is at most `totalFleetSize`; the
fleet bound is enforced per slot, not summed across the day. -/
theorem optimizer_fleet_constraint (cfg : Optimizer.OptimizerConfig)
    (dss : List (List Nat)) (alloc : List (List (Nat × Nat)))
    (h : Optimizer.solveSlots cfg dss = some alloc) :
    ∀ t < dss.length,
      (((alloc.getD t []).map Prod.fst).sum ≤ cfg.totalFleetSize) := by
  intro t ht
  obtain ⟨-, hslot⟩ := solveSlots_sound cfg dss alloc h
  obtain ⟨-, hsum, -⟩ := allocRoutes_sound cfg (dss.getD t []) _ _ (hslot t ht)
  exact hsum

/-- Witness for C2: the slot of the concrete solved instance uses one
bus out of a fleet of ten. -/
theorem optimizer_fleet_constraint_witness :
    ((([[(1, 0), (0, 0)]] : List (List (Nat × Nat))).getD 0 []).map Prod.fst).sum ≤
      (⟨10, 80, 15, 1, 1, 1, 0⟩ : Optimizer.OptimizerConfig).totalFleetSize :=
  optimizer_fleet_constraint ⟨10, 80, 15, 1, 1, 1, 0⟩ [[50, 0]] [[(1, 0), (0, 0)]]
    (by decide) 0 (by decide)

/-- Claim C6: a solver run whose timeout is forced to 0 seconds returns
an `OptimizationTimeout` result carrying a non-null incumbent — the
trivial zero allocation — flagged as timed out, for every configuration
and demand table; it never fails or crashes. -/
theorem optimizer_timeout_returns_incumbent (cfg : Optimizer.OptimizerConfig)
    (dss : List (List Nat)) :
    Optimizer.solveWithTimeout cfg dss 0 =
      Optimizer.OptResult.timedOut (Optimizer.zeroAllocation dss) := by
  simp [Optimizer.solveWithTimeout]

/-- Relaxing the fleet bound preserves feasibility: any allocation
feasible for a fleet of `cfg.totalFleetSize` stays feasible when the
fleet grows and all other configuration fields are unchanged. -/
theorem Feasible_relaxFleet (cfg : Optimizer.OptimizerConfig) (F' R T : Nat)
    (demand : Nat → Nat → ℚ) (a : Optimizer.Allocation)
    (hF : cfg.totalFleetSize ≤ F')
    (h : Optimizer.Feasible cfg R T demand a) :
    Optimizer.Feasible { cfg with totalFleetSize := F' } R T demand a := by
  obtain ⟨hov, hcap, hfleet, hhead⟩ := h
  refine ⟨hov, hcap, ?_, ?_⟩
  · intro t ht
    exact le_trans (hfleet t ht) hF
  · intro r hr t ht
    obtain ⟨hlo, hhi⟩ := hhead r hr t ht
    refine ⟨hlo, ?_⟩
    unfold Optimizer.headwayCap at hhi ⊢
    by_cases hmin : cfg.minHeadwayMinutes = 0
    · simp only [hmin, if_true, eq_self_iff_true] at hhi ⊢
      omega
    · simpa [hmin] using hhi

/-- Claim C7: increasing `totalFleetSize` while holding every other
input fixed never increases the objective value of the optimal
solution: any optimum under the larger fleet costs at most any optimum
under the smaller fleet. -/
theorem optimizer_fleet_monotonicity (cfg : Optimizer.OptimizerConfig)
    (F' R T : Nat) (demand : Nat → Nat → ℚ) (a a' : Optimizer.Allocation)
    (hF : cfg.totalFleetSize ≤ F')
    (ha : Optimizer.IsOptimal cfg R T demand a)
    (ha' : Optimizer.IsOptimal { cfg with totalFleetSize := F' } R T demand a') :
    Optimizer.objective { cfg with totalFleetSize := F' } R T a' ≤
      Optimizer.objective cfg R T a :=
  ha'.2 a (Feasible_relaxFleet cfg F' R T demand a hF ha.1)

/-- Zero demand admits the zero allocation as an optimum whenever the
cost parameters are non-negative and no headway floor is configured. -/
theorem zeroAlloc_isOptimal (cfg : Optimizer.OptimizerConfig) (R T : Nat)
    (hcost : 0 ≤ cfg.operatingCostPerBusHour) (hpen : 0 ≤ cfg.overloadPenalty)
    (hfloor : Optimizer.headwayFloor cfg = 0) :
    Optimizer.IsOptimal cfg R T (fun _ _ => 0)
      ⟨fun _ _ => 0, fun _ _ => 0⟩ := by
  constructor
  · refine ⟨fun r _ t _ => le_refl 0, fun r _ t _ => by simp, fun t _ => by simp, ?_⟩
    intro r _ t _
    exact ⟨by simp [hfloor], Nat.zero_le _⟩
  · intro b hb
    have h0 : Optimizer.objective cfg R T ⟨fun _ _ => 0, fun _ _ => 0⟩ = 0 := by
      simp [Optimizer.objective]
    rw [h0]
    apply add_nonneg
    · refine Finset.sum_nonneg fun r _ => Finset.sum_nonneg fun t _ => ?_
      have : (0 : ℚ) ≤ (b.buses r t : ℚ) * ((cfg.slotDurationMinutes : ℚ) / 60) := by
        positivity
      exact mul_nonneg this hcost
    · refine Finset.sum_nonneg fun r hr => Finset.sum_nonneg fun t ht => ?_
      exact mul_nonneg
        (hb.1 r (Finset.mem_range.mp hr) t (Finset.mem_range.mp ht)) hpen

/-- Witness for C7: a concrete one-cell instance with zero demand and a
fleet grown from 1 to 2; the optimal objective does not increase. -/
theorem optimizer_fleet_monotonicity_witness :
    Optimizer.objective ⟨2, 80, 60, 1, 1, 60, 0⟩ 1 1 ⟨fun _ _ => 0, fun _ _ => 0⟩ ≤
      Optimizer.objective ⟨1, 80, 60, 1, 1, 60, 0⟩ 1 1 ⟨fun _ _ => 0, fun _ _ => 0⟩ :=
  optimizer_fleet_monotonicity ⟨1, 80, 60, 1, 1, 60, 0⟩ 2 1 1 (fun _ _ => 0)
    ⟨fun _ _ => 0, fun _ _ => 0⟩ ⟨fun _ _ => 0, fun _ _ => 0⟩
    (by decide)
    (zeroAlloc_isOptimal ⟨1, 80, 60, 1, 1, 60, 0⟩ 1 1 (by norm_num) (by norm_num)
      (by decide))
    (zeroAlloc_isOptimal ⟨2, 80, 60, 1, 1, 60, 0⟩ 1 1 (by norm_num) (by norm_num)
      (by decide))

/-- Claim C8: the Simulator drains a single logical event queue in
non-decreasing timestamp order with equal timestamps broken by insertion
order (FIFO): the processed key sequence is a permutation of all
scheduled events' keys, it is sorted under the `(timestamp, insertion
sequence)` priority, and it is the unique such sequence — so it is
uniquely determined by the scheduled events. -/
theorem simulator_event_order (es : List Simulator.SimulationEvent) :
    (Simulator.processOrder es).Perm (Simulator.eventKeys es) ∧
    List.Sorted Simulator.keyLe (Simulator.processOrder es) ∧
    ∀ l : List (Nat × Nat), l.Perm (Simulator.eventKeys es) →
      List.Sorted Simulator.keyLe l → l = Simulator.processOrder es := by
  refine ⟨List.perm_insertionSort _ _, List.sorted_insertionSort _ _, ?_⟩
  intro l hperm hsort
  exact List.eq_of_perm_of_sorted
    (hperm.trans (List.perm_insertionSort _ _).symm) hsort
    (List.sorted_insertionSort _ _)

/-- Witness for C8: three concrete events, two sharing timestamp 3; the
unique processed order puts the tied events in insertion (FIFO) order
ahead of the later event. -/
theorem simulator_event_order_witness :
    ([(1, 3), (2, 3), (0, 5)] : List (Nat × Nat)) =
      Simulator.processOrder
        [⟨5, 0, .arrival⟩, ⟨3, 1, .departure⟩, ⟨3, 2, .arrival⟩] ∧
    List.Sorted Simulator.keyLe
      (Simulator.processOrder
        [⟨5, 0, .arrival⟩, ⟨3, 1, .departure⟩, ⟨3, 2, .arrival⟩]) :=
  ⟨(simulator_event_order
      [⟨5, 0, .arrival⟩, ⟨3, 1, .departure⟩, ⟨3, 2, .arrival⟩]).2.2
      [(1, 3), (2, 3), (0, 5)] (by decide) (by decide),
   (simulator_event_order
      [⟨5, 0, .arrival⟩, ⟨3, 1, .departure⟩, ⟨3, 2, .arrival⟩]).2.1⟩

/-- Claim C3 (amended): ingestion never rejects a cell value.  The only
validation `loadCSVData` performs is the row-retention check on the stop
name and stop order; in particular no row is rejected, and no error is
raised, on account of a negative or malformed demand value. -/
theorem ingestion_validates_only_name_and_order (lines : List (List String))
    (s : TJCSV.CSVStop) (h : s ∈ TJCSV.loadCSVData lines) :
    s.stop_name ≠ "" ∧ 0 < s.stop_order := by
  have hk := List.of_mem_filter h
  simpa [TJCSV.keepStop] using hk

/-- Witness for the amended C3 at a concrete well-formed CSV line. -/
theorem ingestion_validates_only_name_and_order_witness :
    (⟨3, "Monas", "to Monas", "Monas", 25, 4, 1⟩ : TJCSV.CSVStop).stop_name ≠ "" ∧
    0 < (⟨3, "Monas", "to Monas", "Monas", 25, 4, 1⟩ : TJCSV.CSVStop).stop_order :=
  ingestion_validates_only_name_and_order
    [["2025-08-18", "Monday", "07:00", "7", "0", "to Monas", "Monas", "3",
      "Monas", "1.6", "1", "1", "25", "4"]]
    ⟨3, "Monas", "to Monas", "Monas", 25, 4, 1⟩ (by decide)

/-- Counterexample to C3 as stated: a CSV line whose demand cell is the
negative value `-5` and one whose demand cell is the malformed string
`"abc"` are both ingested — the negative value verbatim and the
malformed one silently coerced to `0` — instead of being rejected with a
`DataValidationError` (ingestion is total and has no error outcome). -/
theorem ingestion_accepts_negative_and_malformed :
    (TJCSV.loadCSVData
      [["2025-08-18", "Monday", "07:00", "7", "0", "to Monas", "Monas", "3",
        "Monas", "1.6", "1", "1", "-5", "4"],
       ["2025-08-18", "Monday", "07:15", "7", "15", "to Monas", "Monas", "4",
        "Juanda", "1.2", "1", "2", "abc", "4"]]).map
      TJCSV.CSVStop.observed_passengers = [-5, 0] := by decide

/-- Claim C4 (amended): the repository's demand prediction is a
deterministic function of its inputs and the ambient `Math.random()`
draw only — the draw enters solely through the final variation factor
`0.8 + rand · 0.4`, and no `randomSeed` parameter exists anywhere in
the function — so two runs agree exactly when their random draws
coincide, not merely when a seed does. -/
theorem predictPassengers_deterministic_in_draw (hist : List TJData.HistoricalData)
    (stopName dayOfWeek : String) (hour minute : Int)
    (direction destination : String) (rand : ℚ) :
    TJData.predictPassengers hist stopName dayOfWeek hour minute direction
        destination rand =
      max 1 (jsRound (TJData.predictBase hist stopName dayOfWeek hour *
        (0.8 + rand * 0.4))) := by
  by_cases h : 0 < (TJData.matchingRows hist stopName dayOfWeek hour).length
  · simp [TJData.predictPassengers, TJData.predictBase, h]
  · simp [TJData.predictPassengers, TJData.predictBase, h]

/-- Counterexample to C4 as stated: with all declared inputs identical
(and therefore under any fixed `randomSeed`), two runs of the prediction
that observe different ambient `Math.random()` draws return different
passenger counts — the pipeline's output is not a function of the
inputs and the seed. -/
theorem predictPassengers_differs_across_runs :
    TJData.predictPassengers [] "X" "Tuesday" 10 0 "to Monas" "Monas" 0 = 12 ∧
    TJData.predictPassengers [] "X" "Tuesday" 10 0 "to Monas" "Monas" (1 / 2) = 15 := by
  have h1 : jsIncludes "X" "Pulo Gadung" = false := by decide
  have h2 : jsIncludes "X" "Monas" = false := by decide
  have h3 : jsIncludes "X" "Juanda" = false := by decide
  have hh1 : ¬((6 : Int) ≤ 10 ∧ (10 : Int) ≤ 9) := by decide
  have hh2 : ¬((16 : Int) ≤ 10 ∧ (10 : Int) ≤ 19) := by decide
  have hh3 : ¬((22 : Int) ≤ 10 ∨ (10 : Int) ≤ 5) := by decide
  have hd1 : ¬(("Tuesday" = "Monday") ∨ ("Tuesday" = "Friday")) := by decide
  have hd2 : ¬(("Tuesday" = "Saturday") ∨ ("Tuesday" = "Sunday")) := by decide
  constructor <;>
  · simp only [TJData.predictPassengers, TJData.matchingRows, List.filter_nil,
      List.length_nil, lt_irrefl, if_false, h1, h2, h3, hh1, hh2, hh3, hd1, hd2,
      ite_false, Bool.false_eq_true, or_self, max_def]
    norm_num [jsRound]

/-- Mapping a key-preserving function across an ordered insertion gives
the ordered insertion of the image. -/
theorem map_orderedInsert {α β : Type} (r : α → α → Prop) [DecidableRel r]
    (r' : β → β → Prop) [DecidableRel r'] (f : α → β)
    (hf : ∀ a b, r a b ↔ r' (f a) (f b)) (a : α) :
    ∀ l : List α, (List.orderedInsert r a l).map f =
      List.orderedInsert r' (f a) (l.map f) := by
  intro l
  induction l with
  | nil => rfl
  | cons b t ih =>
    by_cases h : r a b
    · simp [List.orderedInsert, h, (hf a b).mp h]
    · have h' : ¬ r' (f a) (f b) := fun hc => h ((hf a b).mpr hc)
      simp [List.orderedInsert, h, h', ih]

/-- Mapping a key-preserving function across an insertion sort gives the
insertion sort of the image; with a stable sort this lets projections of
sorted outputs be compared without re-sorting. -/
theorem map_insertionSort {α β : Type} (r : α → α → Prop) [DecidableRel r]
    (r' : β → β → Prop) [DecidableRel r'] (f : α → β)
    (hf : ∀ a b, r a b ↔ r' (f a) (f b)) :
    ∀ l : List α, (List.insertionSort r l).map f =
      List.insertionSort r' (l.map f) := by
  intro l
  induction l with
  | nil => rfl
  | cons b t ih =>
    simp only [List.insertionSort, List.map]
    rw [map_orderedInsert r r' f hf, ih]

/-- The random-free projection of an aggregated stop does not depend on
which random stream built it. -/
theorem dropRandom_mkCorridor2Stop (r1 r2 : Nat → ℚ) (i : Nat) (n : String)
    (rs : List TJCSV.CSVStop) :
    TJCSV.dropRandom (TJCSV.mkCorridor2Stop r1 i n rs) =
      TJCSV.dropRandom (TJCSV.mkCorridor2Stop r2 i n rs) := rfl

/-- The sort key (stop order) is preserved by the random-free
projection. -/
theorem stopLe_dropRandom (a b : TJCSV.Corridor2Stop) :
    TJCSV.stopLe a b ↔ TJCSV.detStopLe (TJCSV.dropRandom a) (TJCSV.dropRandom b) :=
  Iff.rfl

/-- Claim C5 (amended): every aggregated field of `getStops` other than
`waiting_passengers` and `prediction` is a pure function of the loaded
CSV data — re-running the aggregation on the same data reproduces those
fields identically regardless of the ambient `Math.random()` draws. -/
theorem getStops_aggregation_deterministic (isLoaded : Bool)
    (csvData : List TJCSV.CSVStop) (r1 r2 : Nat → ℚ) :
    (TJCSV.getStops isLoaded csvData r1).map TJCSV.dropRandom =
      (TJCSV.getStops isLoaded csvData r2).map TJCSV.dropRandom := by
  cases isLoaded with
  | false => rfl
  | true =>
    simp only [TJCSV.getStops, Bool.not_true, Bool.false_eq_true, if_false]
    rw [map_insertionSort TJCSV.stopLe TJCSV.detStopLe TJCSV.dropRandom
        stopLe_dropRandom,
      map_insertionSort TJCSV.stopLe TJCSV.detStopLe TJCSV.dropRandom
        stopLe_dropRandom]
    rw [List.map_map, List.map_map]
    congr 1

/-- Counterexample to C5 as stated: re-running `getStops` on the same
loaded data with different ambient `Math.random()` draws yields
different outputs — the `waiting_passengers` field of the only stop is
`20` on one run and `30` on the other — so the aggregation is not a pure
function of its persisted input. -/
theorem getStops_rerun_differs :
    TJCSV.getStops true [⟨3, "Monas", "to Monas", "Monas", 20, 4, 1⟩]
        (fun _ => 0) ≠
      TJCSV.getStops true [⟨3, "Monas", "to Monas", "Monas", 20, 4, 1⟩]
        (fun _ => 1 / 2) := by
  intro h
  have hw := congrArg
    (fun l => l.map TJCSV.Corridor2Stop.waiting_passengers) h
  simp only [TJCSV.getStops, TJCSV.groupByName, TJCSV.insertRecord,
    TJCSV.mkCorridor2Stop, List.foldl, List.enum, List.enumFrom, List.map,
    List.insertionSort, List.orderedInsert, Bool.not_true, Bool.false_eq_true,
    if_false, List.sum_cons, List.sum_nil, List.length_cons, List.length_nil,
    List.filter, List.getD, jsRound] at hw
  norm_num at hw

/-- Claim C9: before `loadData()` has completed (the `isLoaded` flag is
still `false`), the four strict accessors throw, the by-id accessors
return `undefined`, the filter accessors return the empty list, the
crowding prediction returns `'unknown'`, the arrival prediction returns
`'N/A'`, and every accessor leaves the service state unchanged. -/
theorem json_service_guards_before_load (s : TJJSON.ServiceState)
    (h : s.isLoaded = false) (id zone line corridor crowding : String)
    (hz : TJJSON.Horizon) :
    TJJSON.getStops s = (.error TJJSON.notLoadedMsg, s) ∧
    TJJSON.getRoutes s = (.error TJJSON.notLoadedMsg, s) ∧
    TJJSON.getLiveBuses s = (.error TJJSON.notLoadedMsg, s) ∧
    TJJSON.getPredictions s = (.error TJJSON.notLoadedMsg, s) ∧
    TJJSON.getStopById s id = (none, s) ∧
    TJJSON.getRouteById s id = (none, s) ∧
    TJJSON.getStopsByCrowding s crowding = ([], s) ∧
    TJJSON.getStopsByZone s zone = ([], s) ∧
    TJJSON.getStopsByServiceLine s line = ([], s) ∧
    TJJSON.getStopsByCorridor s corridor = ([], s) ∧
    TJJSON.getRoutesByCorridor s corridor = ([], s) ∧
    TJJSON.getCrowdingPrediction s id hz = ("unknown", s) ∧
    TJJSON.getArrivalPrediction s id hz = ("N/A", s) := by
  have hn : TJJSON.notLoaded s = true := by
    simp [TJJSON.notLoaded, h]
  simp [TJJSON.getStops, TJJSON.getRoutes, TJJSON.getLiveBuses,
    TJJSON.getPredictions, TJJSON.getStopById, TJJSON.getRouteById,
    TJJSON.getStopsByCrowding, TJJSON.getStopsByZone,
    TJJSON.getStopsByServiceLine, TJJSON.getStopsByCorridor,
    TJJSON.getRoutesByCorridor, TJJSON.getCrowdingPrediction,
    TJJSON.getArrivalPrediction, hn]

/-- Witness for C9 at the service's initial state. -/
theorem json_service_guards_before_load_witness :
    TJJSON.getStops TJJSON.initialState = (.error TJJSON.notLoadedMsg, TJJSON.initialState) ∧
    TJJSON.getRoutes TJJSON.initialState = (.error TJJSON.notLoadedMsg, TJJSON.initialState) ∧
    TJJSON.getLiveBuses TJJSON.initialState = (.error TJJSON.notLoadedMsg, TJJSON.initialState) ∧
    TJJSON.getPredictions TJJSON.initialState = (.error TJJSON.notLoadedMsg, TJJSON.initialState) ∧
    TJJSON.getStopById TJJSON.initialState "S001" = (none, TJJSON.initialState) ∧
    TJJSON.getRouteById TJJSON.initialState "S001" = (none, TJJSON.initialState) ∧
    TJJSON.getStopsByCrowding TJJSON.initialState "high" = ([], TJJSON.initialState) ∧
    TJJSON.getStopsByZone TJJSON.initialState "East Jakarta" = ([], TJJSON.initialState) ∧
    TJJSON.getStopsByServiceLine TJJSON.initialState "2A" = ([], TJJSON.initialState) ∧
    TJJSON.getStopsByCorridor TJJSON.initialState "2" = ([], TJJSON.initialState) ∧
    TJJSON.getRoutesByCorridor TJJSON.initialState "2" = ([], TJJSON.initialState) ∧
    TJJSON.getCrowdingPrediction TJJSON.initialState "S001" TJJSON.Horizon.next15min =
      ("unknown", TJJSON.initialState) ∧
    TJJSON.getArrivalPrediction TJJSON.initialState "S001" TJJSON.Horizon.next15min =
      ("N/A", TJJSON.initialState) :=
  json_service_guards_before_load TJJSON.initialState rfl "S001" "East Jakarta"
    "2A" "2" "high" TJJSON.Horizon.next15min

/-- Projecting the matching passenger counts through the server's
pair-shaped rows agrees with filtering the typed rows first. -/
theorem filter_pairs_eq (rows : List CSVDataService.CSVRow) (name : String) :
    (((rows.map fun r => (r.stop_name, r.observed_passengers)).filter
        fun p => p.1 = name).map Prod.snd) =
      ((CSVDataService.getDataForStop rows name).map
        CSVDataService.CSVRow.observed_passengers) := by
  induction rows with
  | nil => rfl
  | cons r t ih =>
    by_cases h : r.stop_name = name
    · simp [CSVDataService.getDataForStop, List.filter_cons, h] at ih ⊢
      exact ih
    · simp [CSVDataService.getDataForStop, List.filter_cons, h] at ih ⊢
      exact ih

/-- Claim C10: for every stop name, both average-passenger computations
(the `CSVDataService` method and the `server.js` endpoint) return `0`
(the endpoint with `totalRecords = 0`) when no record matches, and the
rounded arithmetic mean of the matching `observed_passengers` values
otherwise; the division is reached only under a positive record count,
so the computation is total and never errors. -/
theorem average_guarded_by_count (rows : List CSVDataService.CSVRow)
    (name : String) :
    (CSVDataService.getDataForStop rows name = [] →
      CSVDataService.getAveragePassengersForStop rows name = 0 ∧
      ServerAverage.averageForStop
        (rows.map fun r => (r.stop_name, r.observed_passengers)) name = (0, 0)) ∧
    (CSVDataService.getDataForStop rows name ≠ [] →
      CSVDataService.getAveragePassengersForStop rows name =
        jsRound (arithMean ((CSVDataService.getDataForStop rows name).map
          CSVDataService.CSVRow.observed_passengers)) ∧
      ServerAverage.averageForStop
        (rows.map fun r => (r.stop_name, r.observed_passengers)) name =
        (jsRound (arithMean ((CSVDataService.getDataForStop rows name).map
          CSVDataService.CSVRow.observed_passengers)),
         (CSVDataService.getDataForStop rows name).length)) := by
  constructor
  · intro h
    constructor
    · simp [CSVDataService.getAveragePassengersForStop, h]
    · simp [ServerAverage.averageForStop, filter_pairs_eq, h]
  · intro h
    have hlen : CSVDataService.getDataForStop rows name ≠ [] := h
    have hpos : 0 < (CSVDataService.getDataForStop rows name).length :=
      List.length_pos.mpr hlen
    constructor
    · simp only [CSVDataService.getAveragePassengersForStop, arithMean,
        List.length_map]
      rw [if_neg (Nat.pos_iff_ne_zero.mp hpos)]
    · simp only [ServerAverage.averageForStop, filter_pairs_eq, arithMean,
        List.length_map]
      rw [if_pos hpos]

/-- Witness for C10: two Monas records (20 and 30 passengers) — the
unmatched stop Juanda yields `0`/`(0, 0)`, and Monas yields the rounded
mean of its two records. -/
theorem average_guarded_by_count_witness :
    (CSVDataService.getAveragePassengersForStop
        [⟨"2025-08-18", "Monday", "07:00", 7, 0, "to Monas", "Monas", 3, "Monas",
          1.6, 1, 1, 20, 4⟩,
         ⟨"2025-08-18", "Monday", "07:15", 7, 15, "to Monas", "Monas", 3, "Monas",
          1.6, 1, 2, 30, 4⟩] "Juanda" = 0 ∧
      ServerAverage.averageForStop
        (([⟨"2025-08-18", "Monday", "07:00", 7, 0, "to Monas", "Monas", 3, "Monas",
            1.6, 1, 1, 20, 4⟩,
           ⟨"2025-08-18", "Monday", "07:15", 7, 15, "to Monas", "Monas", 3, "Monas",
            1.6, 1, 2, 30, 4⟩] : List CSVDataService.CSVRow).map
          fun r => (r.stop_name, r.observed_passengers)) "Juanda" = (0, 0)) ∧
    (CSVDataService.getAveragePassengersForStop
        [⟨"2025-08-18", "Monday", "07:00", 7, 0, "to Monas", "Monas", 3, "Monas",
          1.6, 1, 1, 20, 4⟩,
         ⟨"2025-08-18", "Monday", "07:15", 7, 15, "to Monas", "Monas", 3, "Monas",
          1.6, 1, 2, 30, 4⟩] "Monas" =
      jsRound (arithMean ((CSVDataService.getDataForStop
        [⟨"2025-08-18", "Monday", "07:00", 7, 0, "to Monas", "Monas", 3, "Monas",
          1.6, 1, 1, 20, 4⟩,
         ⟨"2025-08-18", "Monday", "07:15", 7, 15, "to Monas", "Monas", 3, "Monas",
          1.6, 1, 2, 30, 4⟩] "Monas").map
        CSVDataService.CSVRow.observed_passengers)) ∧
      ServerAverage.averageForStop
        (([⟨"2025-08-18", "Monday", "07:00", 7, 0, "to Monas", "Monas", 3, "Monas",
            1.6, 1, 1, 20, 4⟩,
           ⟨"2025-08-18", "Monday", "07:15", 7, 15, "to Monas", "Monas", 3, "Monas",
            1.6, 1, 2, 30, 4⟩] : List CSVDataService.CSVRow).map
          fun r => (r.stop_name, r.observed_passengers)) "Monas" =
        (jsRound (arithMean ((CSVDataService.getDataForStop
          [⟨"2025-08-18", "Monday", "07:00", 7, 0, "to Monas", "Monas", 3, "Monas",
            1.6, 1, 1, 20, 4⟩,
           ⟨"2025-08-18", "Monday", "07:15", 7, 15, "to Monas", "Monas", 3, "Monas",
            1.6, 1, 2, 30, 4⟩] "Monas").map
          CSVDataService.CSVRow.observed_passengers)),
         (CSVDataService.getDataForStop
          [⟨"2025-08-18", "Monday", "07:00", 7, 0, "to Monas", "Monas", 3, "Monas",
            1.6, 1, 1, 20, 4⟩,
           ⟨"2025-08-18", "Monday", "07:15", 7, 15, "to Monas", "Monas", 3, "Monas",
            1.6, 1, 2, 30, 4⟩] "Monas").length)) :=
  ⟨(average_guarded_by_count
      [⟨"2025-08-18", "Monday", "07:00", 7, 0, "to Monas", "Monas", 3, "Monas",
        1.6, 1, 1, 20, 4⟩,
       ⟨"2025-08-18", "Monday", "07:15", 7, 15, "to Monas", "Monas", 3, "Monas",
        1.6, 1, 2, 30, 4⟩] "Juanda").1 (by decide),
   (average_guarded_by_count
      [⟨"2025-08-18", "Monday", "07:00", 7, 0, "to Monas", "Monas", 3, "Monas",
        1.6, 1, 1, 20, 4⟩,
       ⟨"2025-08-18", "Monday", "07:15", 7, 15, "to Monas", "Monas", 3, "Monas",
        1.6, 1, 2, 30, 4⟩] "Monas").2 (by decide)⟩
